import Mathlib

set_option autoImplicit false
set_option maxRecDepth 40000

namespace Fashions

/-- Decidable equality for the `Except`-valued operations of the model. -/
instance : DecidableEq (Except String String) := fun x y =>
  match x, y with
  | .error a, .error b =>
    if h : a = b then .isTrue (by rw [h]) else .isFalse (by simp [h])
  | .error _, .ok _ => .isFalse (by simp)
  | .ok _, .error _ => .isFalse (by simp)
  | .ok a, .ok b =>
    if h : a = b then .isTrue (by rw [h]) else .isFalse (by simp [h])

/-! ## Python string primitives

The repository is Python; the fragment below embeds the string operations
its processing pipeline uses.  All inputs appearing in this development are
ASCII, so the ASCII fragment of the Unicode definitions suffices. -/

/-- Whitespace characters recognized by Python `str.strip` / `str.split`
(the ASCII fragment: space, tab, LF, VT, FF, CR and the separators
U+001C..U+001F). -/
def isPySpace (c : Char) : Bool :=
  c = ' ' || c = '\t' || c = '\n' || c = '\r' ||
  c = Char.ofNat 11 || c = Char.ofNat 12 ||
  c = Char.ofNat 28 || c = Char.ofNat 29 || c = Char.ofNat 30 || c = Char.ofNat 31

/-- Drop leading Python whitespace from a character list (`str.lstrip`). -/
def lstripL (l : List Char) : List Char := l.dropWhile isPySpace

/-- Drop trailing Python whitespace from a character list (`str.rstrip`). -/
def rstripL : List Char → List Char
  | [] => []
  | c :: cs =>
    match rstripL cs with
    | [] => if isPySpace c then [] else [c]
    | r => c :: r

/-- Drop leading and trailing Python whitespace (`str.strip`). -/
def stripL (l : List Char) : List Char := rstripL (lstripL l)

/-- Python `str.strip()`. -/
def pyStrip (s : String) : String := ⟨stripL s.data⟩

/-- Python `str.rstrip()`. -/
def pyRstrip (s : String) : String := ⟨rstripL s.data⟩

/-- ASCII lower-casing of one character, as Python `str.lower()` acts on
ASCII text. -/
def lowerChar (c : Char) : Char :=
  if 'A' ≤ c ∧ c ≤ 'Z' then Char.ofNat (c.toNat + 32) else c

/-- Python `str.lower()` on ASCII text. -/
def pyLower (s : String) : String := ⟨s.data.map lowerChar⟩

/-- Helper for `splitWsL`: accumulates the current word (reversed) while
scanning. -/
def splitWsAux : List Char → List Char → List (List Char)
  | acc, [] => if acc = [] then [] else [acc.reverse]
  | acc, c :: cs =>
    if isPySpace c then
      if acc = [] then splitWsAux [] cs else acc.reverse :: splitWsAux [] cs
    else
      splitWsAux (c :: acc) cs

/-- Python `str.split()` with no separator: the maximal runs of
non-whitespace characters. -/
def splitWsL (l : List Char) : List (List Char) := splitWsAux [] l

/-- Python `" ".join(words)` on character lists. -/
def joinSpaceL : List (List Char) → List Char
  | [] => []
  | [w] => w
  | w :: ws => w ++ ' ' :: joinSpaceL ws

/-- Replace every occurrence of `pat` in the scanned list by `rep`,
left-to-right and non-overlapping, as Python `str.replace`.  The fuel is the
length of the scanned list; it never runs out for a non-empty pattern. -/
def replaceFuel (pat rep : List Char) : ℕ → List Char → List Char
  | 0, l => l
  | _ + 1, [] => []
  | f + 1, c :: cs =>
    if pat.isPrefixOf (c :: cs) then
      rep ++ replaceFuel pat rep f ((c :: cs).drop pat.length)
    else
      c :: replaceFuel pat rep f cs

/-- Python `s.replace(pat, rep)` for a non-empty pattern. -/
def pyReplace (s pat rep : String) : String :=
  ⟨replaceFuel pat.data rep.data s.data.length s.data⟩

/-- Python `template.format(name=value, ...)` restricted to the named
placeholders the prompt templates use: each `{name}` occurrence is
substituted.  The templates contain no escaped braces or other format
syntax, and the substituted values contain no placeholders, so sequential
replacement agrees with `str.format`. -/
def pyFormat (template : String) (vars : List (String × String)) : String :=
  vars.foldl (fun acc kv => pyReplace acc ("\x7b" ++ kv.1 ++ "\x7d") kv.2) template

/-! ## IEEE-754 double arithmetic for the paragraph bounds

`ExcelProcessor._build_paragraph` computes `int(target_words * 0.75)` and
`int(target_words * 1.15)` in Python float (IEEE-754 binary64) arithmetic.
We embed this exactly with integer arithmetic: `1.15` is the nearest double
to `23/20`, the product with the (exactly representable) target is rounded
to the nearest double again, and `int` truncates toward zero. -/

/-- Round the nonnegative rational `n / d` (with `d ≠ 0`) to the nearest
integer, ties to even — the IEEE-754 default rounding. -/
def rneNat (n d : ℕ) : ℕ :=
  let q := n / d
  let r := n % d
  if 2 * r < d then q
  else if d < 2 * r then q + 1
  else if q % 2 = 0 then q else q + 1

/-- Base-2 logarithm on `ℕ` (`⌊log₂ n⌋` for `1 ≤ n < 2^64`, the range used
here), computed by counting the powers of two not exceeding `n`. -/
def natLog2 (n : ℕ) : ℕ :=
  ((List.range 64).countP fun e => 2 ^ e ≤ n) - 1

/-- The significand of the IEEE-754 double nearest `1.15`: the value of the
literal `1.15` is `m115 / 2^52`. -/
def m115 : ℕ := rneNat (23 * 2 ^ 52) 20

/-- `int(t * 1.15)` computed in IEEE-754 double arithmetic, by exact integer
arithmetic: the exact product `t * m115 / 2^52` is rounded to the nearest
double (53-bit significand, round to nearest, ties to even) and truncated
toward zero.  Valid for `1 ≤ t < 2^51`, where `t` itself is exact and the
product does not overflow. -/
def intMulDouble115 (t : ℕ) : ℕ :=
  let p := t * m115
  let e := natLog2 p
  rneNat p (2 ^ (e - 52)) / 2 ^ (104 - e)

/-- `int(t * 0.75)`: `0.75`, the target and their product are all exactly
representable doubles for every target below `2^51`, so the computation is
exact and truncation gives `3 * t / 4` in `ℕ`. -/
def intMulDouble075 (t : ℕ) : ℕ := 3 * t / 4

/-- The `lower_bound = int(target_words * 0.75)` of
`ExcelProcessor._build_paragraph`. -/
def lowerBound (targetWords : ℕ) : ℕ := intMulDouble075 targetWords

/-- The `upper_bound = int(target_words * 1.15)` of
`ExcelProcessor._build_paragraph`. -/
def upperBound (targetWords : ℕ) : ℕ := intMulDouble115 targetWords

/-- The acceptance test `lower_bound <= word_count <= upper_bound` of
`ExcelProcessor._build_paragraph`. -/
def paragraphAccepts (targetWords wordCnt : ℕ) : Bool :=
  lowerBound targetWords ≤ wordCnt && wordCnt ≤ upperBound targetWords

/-! ## The workbook processor (`app/services/excel_processor.py`) -/

/-- Scanner of `ExcelProcessor._strip_html`: a `<` enters tag state and
appends one space, a `>` leaves tag state, characters inside a tag are
dropped, characters outside are kept — mirroring the `if/elif` chain of the
Python loop. -/
def stripHtmlAux : Bool → List Char → List Char
  | _, [] => []
  | inTag, c :: cs =>
    if c = '<' then ' ' :: stripHtmlAux true cs
    else if c = '>' then stripHtmlAux false cs
    else if inTag then stripHtmlAux true cs
    else c :: stripHtmlAux false cs

/-- `ExcelProcessor._strip_html`: scan the fragment dropping tag contents
(each `<` contributing one space), then whitespace-collapse with
`" ".join(text.split())`. -/
def stripHtml (s : String) : String :=
  ⟨joinSpaceL (splitWsL (stripHtmlAux false s.data))⟩

/-- The word count used for paragraph acceptance:
`len(self._strip_html(paragraph).split())`. -/
def wordCount (s : String) : ℕ := (splitWsL (stripHtml s).data).length

/-- `ExcelProcessor._validate_heading`.  The forbidden set is modelled as a
list of (already lower-cased) strings; Python set membership becomes list
membership. -/
def validateHeading (heading keyword : String) (forbidden : List String) : String :=
  let cleaned := pyStrip heading
  if cleaned = "" then ""
  else if pyLower cleaned ∈ forbidden then ""
  else if 60 < cleaned.length then pyRstrip ⟨cleaned.data.take 60⟩
  else cleaned

/-- `ExcelProcessor._normalize_paragraph`: trim, and wrap in a paragraph tag
unless the lower-cased text already starts with `<p`. -/
def normalizeParagraph (paragraph : String) : String :=
  let cleaned := pyStrip paragraph
  if "<p".data.isPrefixOf (pyLower cleaned).data then cleaned
  else "<p>" ++ cleaned ++ "</p>"

/-- `ExcelProcessor._compose_html`: the four lines joined by newlines, in
that literal order. -/
def composeHtml (h2 h2p h3 h3p : String) : String :=
  "<h2>" ++ h2 ++ "</h2>" ++ "\n" ++ pyStrip h2p ++ "\n" ++
    "<h3>" ++ h3 ++ "</h3>" ++ "\n" ++ pyStrip h3p

/-- The external text-generation collaborator (`OpenAIContentGenerator`) as
a deterministic oracle: each operation maps its arguments and the attempt
number (0, 1, 2 within one retry loop) to the returned text. -/
structure Gen where
  genH2 : String → ℕ → String
  genParagraph : String → String → ℕ → ℕ → String
  genH3 : String → String → ℕ → String

/-- One spreadsheet row, all cells read as strings (the columns of
`ExcelProcessor.REQUIRED_COLUMNS` plus the two relevant-text columns). -/
structure Row where
  keyword : String
  h2Override : String
  h3Override : String
  h2Headline : String
  h3Headline : String
  relevantText2 : String
  relevantText3 : String
  collectionHtml : String
  processedAt : String
  rowHash : String
deriving DecidableEq

/-- The retry loop shared by `_build_h2_heading` and `_build_h3_heading`:
return the first candidate that validates to a non-empty heading, and raise
(`Except.error`) after the candidates are exhausted. -/
def firstValidHeading (candidates : List String) (keyword : String)
    (forbidden : List String) (failMsg : String) : Except String String :=
  match candidates with
  | [] => .error failMsg
  | c :: rest =>
    let h := validateHeading c keyword forbidden
    if h ≠ "" then .ok h else firstValidHeading rest keyword forbidden failMsg

/-- `ExcelProcessor._build_h2_heading`: a non-empty (after trimming)
override is validated and returned directly; otherwise the three attempts
of the `range(3)` loop run, and exhaustion raises
`ValueError("Unable to produce valid H2 heading")`. -/
def buildH2Heading (g : Gen) (keyword : String) (row : Row) : Except String String :=
  let override := pyStrip row.h2Override
  if override ≠ "" then
    .ok (validateHeading override keyword [pyLower keyword])
  else
    firstValidHeading [g.genH2 keyword 0, g.genH2 keyword 1, g.genH2 keyword 2]
      keyword [pyLower keyword] "Unable to produce valid H2 heading"

/-- `ExcelProcessor._build_h3_heading`: as for H2, but the forbidden set
contains both the keyword and the resolved H2 heading (lower-cased). -/
def buildH3Heading (g : Gen) (keyword h2Heading : String) (row : Row) :
    Except String String :=
  let override := pyStrip row.h3Override
  let forbidden := [pyLower keyword, pyLower h2Heading]
  if override ≠ "" then
    .ok (validateHeading override keyword forbidden)
  else
    firstValidHeading
      [g.genH3 keyword h2Heading 0, g.genH3 keyword h2Heading 1, g.genH3 keyword h2Heading 2]
      keyword forbidden "Unable to produce valid H3 heading"

/-- The `range(3)` loop of `ExcelProcessor._build_paragraph` over the three
raw candidates: the first normalized candidate within bounds is returned;
when the candidates run out the loop falls through and the function returns
the (last) loop variable, i.e. the last normalized attempt. -/
def paragraphLoop (targetWords : ℕ) : List String → String
  | [] => ""
  | c :: rest =>
    let p := normalizeParagraph c
    if paragraphAccepts targetWords (wordCount p) then p
    else
      match rest with
      | [] => p
      | _ :: _ => paragraphLoop targetWords rest

/-- `ExcelProcessor._build_paragraph`. -/
def buildParagraph (g : Gen) (keyword subtopic : String) (targetWords : ℕ) : String :=
  paragraphLoop targetWords
    [g.genParagraph keyword subtopic targetWords 0,
     g.genParagraph keyword subtopic targetWords 1,
     g.genParagraph keyword subtopic targetWords 2]

/-- The outcome of one iteration of the row loop of
`ExcelProcessor.process_file`: the (possibly written) row, the increments of
the `processed` / `skipped` / `shopify_updates` counters, and the error
entries (index, keyword, message) appended for this row. -/
structure StepResult where
  row : Row
  processed : ℕ
  skipped : ℕ
  shopifyUpdates : ℕ
  errors : List (ℕ × String × String)
deriving DecidableEq

/-- The row written by the `try` block of `process_file` before the Shopify
push: headings, paragraphs, composed HTML, timestamp and fresh hash. -/
def writtenRow (g : Gen) (hashFn : String → String → String → String)
    (ts : String) (row : Row) (h2v h3v : String) : Row :=
  { row with
    h2Headline := h2v
    relevantText2 := buildParagraph g (pyStrip row.keyword) h2v 200
    h3Headline := h3v
    relevantText3 := buildParagraph g (pyStrip row.keyword) h3v 150
    collectionHtml :=
      composeHtml h2v (buildParagraph g (pyStrip row.keyword) h2v 200)
        h3v (buildParagraph g (pyStrip row.keyword) h3v 150)
    processedAt := ts
    rowHash := hashFn (pyStrip row.keyword) (pyStrip row.h2Override) (pyStrip row.h3Override) }

/-- One iteration of the row loop of `ExcelProcessor.process_file`.

The content hash is abstracted as `hashFn` over the three trimmed fields of
the `_row_hash` payload (the source uses the SHA-256 hex digest of their
canonical JSON serialization; only equality of digests matters here).
`push` is `some f` exactly when a Shopify client factory is configured
(`_should_push_to_shopify`), with `f` the `upsert_collection` oracle;
`ts` stands for `datetime.now(timezone.utc).isoformat()`.  Exceptions of
the `try` block are the `Except.error` branches, caught here and recorded
as `(idx, keyword, message)` as the source appends an
`ExcelProcessingError`. -/
def rowStep (g : Gen) (hashFn : String → String → String → String)
    (push : Option (String → String → Except String Unit)) (ts : String)
    (idx : ℕ) (row : Row) : StepResult :=
  let keyword := pyStrip row.keyword
  if keyword = "" ∨ pyLower keyword = "nan" then
    ⟨row, 0, 1, 0, []⟩
  else
    let targetHash := hashFn (pyStrip row.keyword) (pyStrip row.h2Override) (pyStrip row.h3Override)
    if row.rowHash = targetHash ∧ pyStrip row.collectionHtml ≠ "" then
      ⟨row, 0, 1, 0, []⟩
    else
      match buildH2Heading g keyword row with
      | .error msg => ⟨row, 0, 0, 0, [(idx, keyword, msg)]⟩
      | .ok h2 =>
        match buildH3Heading g keyword h2 row with
        | .error msg => ⟨row, 0, 0, 0, [(idx, keyword, msg)]⟩
        | .ok h3 =>
          let row' := writtenRow g hashFn ts row h2 h3
          match push with
          | none => ⟨row', 1, 0, 0, []⟩
          | some f =>
            match f keyword row'.collectionHtml with
            | .ok _ => ⟨row', 1, 0, 1, []⟩
            | .error msg => ⟨row', 0, 0, 0, [(idx, keyword, msg)]⟩

/-- The aggregated outcome of the row loop: the output rows and the counters
of `ExcelProcessingResult`.  Workbook I/O (reading the input, writing the
timestamped output file) is outside the model. -/
structure RunResult where
  rows : List Row
  processed : ℕ
  skipped : ℕ
  shopifyUpdates : ℕ
  errors : List (ℕ × String × String)
deriving DecidableEq

/-- The row loop of `ExcelProcessor.process_file` over the whole table,
rows indexed from `idx`. -/
def processRows (g : Gen) (hashFn : String → String → String → String)
    (push : Option (String → String → Except String Unit)) (ts : String) :
    ℕ → List Row → RunResult
  | _, [] => ⟨[], 0, 0, 0, []⟩
  | idx, r :: rs =>
    let s := rowStep g hashFn push ts idx r
    let rest := processRows g hashFn push ts (idx + 1) rs
    ⟨s.row :: rest.rows, s.processed + rest.processed, s.skipped + rest.skipped,
      s.shopifyUpdates + rest.shopifyUpdates, s.errors ++ rest.errors⟩

/-! ## The prompt manager (`app/utils/prompt_manager.py`) -/

/-- The compiled-in default for the `h2_heading` prompt
(`PromptManager.DEFAULT_PROMPTS`). -/
def h2HeadingDefault : String :=
  "Given the main collection keyword: {keyword}. Suggest one complementary, semantically relevant H2 subtopic that helps shoppers discover related items.\n- Keep it 2-5 words.\n- Avoid repeating the main keyword verbatim.\n- Be specific, non-brand, and non-location.\nReturn just the phrase."

/-- The compiled-in default for the `paragraph` prompt. -/
def paragraphDefault : String :=
  "Write an informative, customer-friendly paragraph (~{target_words} words) expanding on the subtopic: {subtopic} in the context of {keyword}.\n- Tone: helpful, concise, non-fluffy.\n- Include practical shopping guidance (fit, fabrics, occasions, styling).\n- No brand claims, no pricing.\n- Avoid keyword stuffing.\n- Return plain HTML <p> only (no inline styles)."

/-- The compiled-in default for the `h3_heading` prompt. -/
def h3HeadingDefault : String :=
  "For the main keyword {keyword}, suggest another complementary subtopic for an H3 heading that differs from {h2_keyword}.\n- 2-5 words, concise, non-brand.\nReturn just the phrase."

/-- `PromptManager.DEFAULT_PROMPTS` as an association list. -/
def defaultPrompts : List (String × String) :=
  [("h2_heading", h2HeadingDefault),
   ("paragraph", paragraphDefault),
   ("h3_heading", h3HeadingDefault)]

/-- `PromptManager.get_prompt`, with `overrides` the in-memory overrides
mapping (at most one entry per key): an unknown key raises `KeyError`, a
non-empty stripped override wins, otherwise the default is returned. -/
def getPrompt (overrides : List (String × String)) (key : String) :
    Except String String :=
  match defaultPrompts.lookup key with
  | none => .error ("Unknown prompt key: " ++ key)
  | some dflt =>
    let value := pyStrip ((overrides.lookup key).getD "")
    if value ≠ "" then .ok value else .ok dflt

/-- `PromptManager.save_overrides`: keeps only recognized keys with
non-empty stripped values; the result is the new in-memory overrides
mapping (the same dictionary is written to disk, which is outside the
model). -/
def saveOverrides (prompts : List (String × String)) : List (String × String) :=
  prompts.filterMap fun kv =>
    if (defaultPrompts.lookup kv.1).isSome ∧ pyStrip kv.2 ≠ "" then
      some (kv.1, pyStrip kv.2)
    else none

/-! ## The content generator (`app/services/openai_client.py`) -/

/-- The prompt template hard-coded as a string literal inside
`OpenAIContentGenerator.generate_h2_heading`.  Note that the method builds
its prompt from this compiled-in literal and never consults the prompt
manager. -/
def openaiH2Template : String :=
  "Given the main collection keyword: {keyword}. Suggest one complementary, semantically relevant H2 subtopic that helps shoppers discover related items.\n- Keep it 2-5 words.\n- Avoid repeating the main keyword verbatim.\n- Be specific, non-brand, and non-location.\nReturn just the phrase."

/-- The prompt text `OpenAIContentGenerator.generate_h2_heading` sends to
the remote text-generation call: the hard-coded template with `{keyword}`
substituted.  It takes no override state at all, because the source never
reads any. -/
def h2PromptSent (keyword : String) : String :=
  pyFormat openaiH2Template [("keyword", keyword)]

/-! ## Concrete sample data used by the witnesses -/

/-- A generator oracle answering every request with the empty string. -/
def genEmpty : Gen := ⟨fun _ _ => "", fun _ _ _ _ => "", fun _ _ _ => ""⟩

/-- A generator oracle with valid headings and a one-word paragraph (out of
bounds for every target used by the processor). -/
def genShort : Gen :=
  ⟨fun _ _ => "Nice Topic", fun _ _ _ _ => "word", fun _ _ _ => "Other Topic"⟩

/-- A hash oracle returning a constant digest. -/
def hashConst (h : String) : String → String → String → String :=
  fun _ _ _ => h

/-- A row already carrying the digest `"H"` and non-empty HTML (the
hash-match skip case). -/
def rowDone : Row :=
  ⟨"summer dresses", "", "", "", "", "", "", "<h2>x</h2>", "", "H"⟩

/-- A fresh row with no overrides and no prior output. -/
def rowFresh : Row :=
  ⟨"summer dresses", "", "", "", "", "", "", "", "", ""⟩

/-- A fresh row whose two heading overrides are set (and valid). -/
def rowOverrides : Row :=
  ⟨"summer dresses", " Beach Outings ", " Fabric Guide ", "", "", "", "", "", "", ""⟩

/-- A fresh row whose H2 override equals the keyword up to case (a
forbidden override). -/
def rowForbiddenH2 : Row :=
  ⟨"summer dresses", " Summer DRESSES ", " Fabric Guide ", "", "", "", "", "", "", ""⟩

/-- A fresh row with a valid H2 override and no H3 override. -/
def rowH3Empty : Row :=
  ⟨"summer dresses", " Beach Outings ", "", "", "", "", "", "", "", ""⟩

/-- A fresh row whose H3 override equals the resolved H2 heading up to case
(a forbidden override). -/
def rowForbiddenH3 : Row :=
  ⟨"summer dresses", "", " Beach OUTINGS ", "", "", "", "", "", "", ""⟩

/-- A storefront oracle whose upsert always fails. -/
def pushFail : String → String → Except String Unit :=
  fun _ _ => .error "shopify down"

/-- A storefront oracle whose upsert always succeeds. -/
def pushOk : String → String → Except String Unit :=
  fun _ _ => .ok ()

/-! ## Helper lemmas -/

theorem rstripL_length_le (l : List Char) : (rstripL l).length ≤ l.length := by
  induction l with
  | nil => simp [rstripL]
  | cons c cs ih =>
    rw [rstripL]
    cases h : rstripL cs with
    | nil =>
      by_cases hs : isPySpace c <;> simp [hs]
    | cons r rs =>
      rw [h] at ih
      simpa using Nat.succ_le_succ ih

theorem rstripL_cons_ne_nil (c : Char) (cs : List Char) (hc : isPySpace c = false) :
    rstripL (c :: cs) ≠ [] := by
  rw [rstripL]
  cases h : rstripL cs with
  | nil => simp [hc]
  | cons r rs => simp

theorem rstripL_idem (l : List Char) : rstripL (rstripL l) = rstripL l := by
  induction l with
  | nil => simp [rstripL]
  | cons c cs ih =>
    rw [rstripL]
    cases h : rstripL cs with
    | nil =>
      by_cases hs : isPySpace c
      · simp [hs, rstripL]
      · simp [hs, rstripL, Bool.of_not_eq_true hs]
    | cons r rs =>
      rw [h] at ih
      simp only []
      rw [rstripL, ih]

theorem lstripL_head (l : List Char) :
    lstripL l = [] ∨ ∃ c cs, lstripL l = c :: cs ∧ isPySpace c = false := by
  induction l with
  | nil => left; rfl
  | cons c cs ih =>
    by_cases hs : isPySpace c
    · simpa [lstripL, List.dropWhile, hs] using ih
    · right
      exact ⟨c, cs, by simp [lstripL, List.dropWhile, hs], Bool.of_not_eq_true hs⟩

theorem stripL_head (l : List Char) :
    stripL l = [] ∨ ∃ c cs, stripL l = c :: cs ∧ isPySpace c = false := by
  rcases lstripL_head l with h | ⟨c, cs, h, hc⟩
  · left; simp [stripL, h, rstripL]
  · rw [stripL, h, rstripL]
    cases hr : rstripL cs with
    | nil => by_cases hs : isPySpace c <;> simp_all
    | cons r rs => right; exact ⟨c, r :: rs, rfl, hc⟩

theorem stripL_idem (l : List Char) : stripL (stripL l) = stripL l := by
  have hl : lstripL (stripL l) = stripL l := by
    rcases stripL_head l with h | ⟨c, cs, h, hc⟩
    · simp [h, lstripL]
    · simp [h, lstripL, List.dropWhile, hc]
  rw [stripL, hl, stripL, rstripL_idem]

theorem pyStrip_idem (s : String) : pyStrip (pyStrip s) = pyStrip s := by
  simp [pyStrip, stripL_idem]

theorem pyStrip_empty : pyStrip "" = "" := rfl

theorem firstValidHeading_all_invalid (c0 c1 c2 kw msg : String) (fb : List String)
    (h0 : validateHeading c0 kw fb = "") (h1 : validateHeading c1 kw fb = "")
    (h2 : validateHeading c2 kw fb = "") :
    firstValidHeading [c0, c1, c2] kw fb msg = .error msg := by
  simp [firstValidHeading, h0, h1, h2]

theorem stripHtmlAux_tagFree (rest : List Char) :
    ∀ s : List Char, (∀ c ∈ s, c ≠ '<' ∧ c ≠ '>') →
      stripHtmlAux false (s ++ rest) = s ++ stripHtmlAux false rest := by
  intro s
  induction s with
  | nil => simp
  | cons c cs ih =>
    intro h
    obtain ⟨hlt, hgt⟩ := h c (List.mem_cons_self c cs)
    rw [List.cons_append, stripHtmlAux, if_neg hlt, if_neg hgt, if_neg (by simp)]
    rw [ih fun x hx => h x (List.mem_cons_of_mem c hx)]
    rfl

theorem stripHtmlAux_inTag (t : List Char) :
    ∀ b : List Char, (∀ c ∈ b, c ≠ '<' ∧ c ≠ '>') →
      stripHtmlAux true (b ++ '>' :: t) = stripHtmlAux false t := by
  intro b
  induction b with
  | nil => simp [stripHtmlAux]
  | cons c cs ih =>
    intro h
    obtain ⟨hlt, hgt⟩ := h c (List.mem_cons_self c cs)
    rw [List.cons_append, stripHtmlAux, if_neg hlt, if_neg hgt, if_pos rfl]
    exact ih fun x hx => h x (List.mem_cons_of_mem c hx)

/-! ## Claims -/

/-- C1: the claim says every prompt key is resolved through the Prompt
Resolver, so a saved non-empty override is the prompt text sent (after
variable substitution).  The code contradicts it: after the resolver state
holds the saved override `Custom: {keyword}` for `h2_heading` (first
conjunct, the resolver does return it), the prompt actually sent by
`generate_h2_heading` is the compiled-in default with the keyword
substituted, not the substituted override, because the generator formats a
hard-coded literal (equal to the compiled-in default template) and never
consults the resolver. -/
theorem c1_generator_ignores_prompt_overrides :
    getPrompt (saveOverrides [("h2_heading", "Custom: {keyword}")]) "h2_heading" =
      .ok "Custom: {keyword}" ∧
    h2PromptSent "dresses" = pyFormat h2HeadingDefault [("keyword", "dresses")] ∧
    h2PromptSent "dresses" ≠ pyFormat "Custom: {keyword}" [("keyword", "dresses")] ∧
    openaiH2Template = h2HeadingDefault := by
  exact ⟨by decide, rfl, by decide, rfl⟩

/-- C2: the claim says for target 200 the accepted stripped word counts are
exactly the inclusive range from 150 to 230.  The code computes
`int(200 * 1.15)` in float arithmetic, which is 229, so a count of 230 is
rejected: counts 150 and 149 behave as claimed, 230 does not, 231 does.
This theorem evaluates the embedded bounds of
`ExcelProcessor._build_paragraph` at the claimed inputs. -/
theorem c2_acceptance_bounds_at_200 :
    lowerBound 200 = 150 ∧ upperBound 200 = 229 ∧
    paragraphAccepts 200 150 = true ∧ paragraphAccepts 200 149 = false ∧
    paragraphAccepts 200 230 = false ∧ paragraphAccepts 200 231 = false := by
  decide

/-- C5 counterexample: a trimmed, non-empty, non-forbidden candidate of 63
characters whose 60-character prefix ends in a space validates to a string
of 59 characters, not exactly 60 — `_validate_heading` right-strips after
the cut. -/
theorem c5_counterexample :
    pyStrip "aaaaaaaaaaaaaaaaaaaaaaaaaaaaaaaaaaaaaaaaaaaaaaaaaaaaaaaaaaa bcd" =
      "aaaaaaaaaaaaaaaaaaaaaaaaaaaaaaaaaaaaaaaaaaaaaaaaaaaaaaaaaaa bcd" ∧
    ("aaaaaaaaaaaaaaaaaaaaaaaaaaaaaaaaaaaaaaaaaaaaaaaaaaaaaaaaaaa bcd" : String).length = 63 ∧
    pyLower "aaaaaaaaaaaaaaaaaaaaaaaaaaaaaaaaaaaaaaaaaaaaaaaaaaaaaaaaaaa bcd" ∉ [pyLower "k"] ∧
    validateHeading "aaaaaaaaaaaaaaaaaaaaaaaaaaaaaaaaaaaaaaaaaaaaaaaaaaaaaaaaaaa bcd" "k"
        [pyLower "k"] ≠ "" ∧
    (validateHeading "aaaaaaaaaaaaaaaaaaaaaaaaaaaaaaaaaaaaaaaaaaaaaaaaaaaaaaaaaaa bcd" "k"
        [pyLower "k"]).length = 59 := by
  decide

/-- C7 counterexample: the word count of `foo<b>bar` is 2, while deleting
the tag outright gives `foobar` with word count 1 — `_strip_html` replaces
a tag by a space, so text adjacent to a tag on both sides does not count as
with the tag simply deleted. -/
theorem c7_counterexample :
    wordCount "foo<b>bar" = 2 ∧ wordCount "foobar" = 1 ∧
    wordCount "foo<b>bar" ≠ wordCount "foobar" := by
  decide

/-- C3: a row whose recomputed hash equals its stored hash and whose stored
HTML is non-empty after trimming is skipped: the step result is the same
for every generator and storefront oracle (so neither is called), the row
is returned unchanged, the skipped counter is incremented, and no error is
recorded; the loop then continues with the remaining rows, whose outcome is
unaffected. -/
theorem c3_hash_match_skips_row
    (g : Gen) (hashFn : String → String → String → String)
    (push : Option (String → String → Except String Unit)) (ts : String)
    (idx : ℕ) (row : Row) (rest : List Row)
    (hkw : pyStrip row.keyword ≠ "")
    (hnan : pyLower (pyStrip row.keyword) ≠ "nan")
    (hhash : row.rowHash =
      hashFn (pyStrip row.keyword) (pyStrip row.h2Override) (pyStrip row.h3Override))
    (hhtml : pyStrip row.collectionHtml ≠ "") :
    rowStep g hashFn push ts idx row = ⟨row, 0, 1, 0, []⟩ ∧
    processRows g hashFn push ts idx (row :: rest) =
      ⟨row :: (processRows g hashFn push ts (idx + 1) rest).rows,
        (processRows g hashFn push ts (idx + 1) rest).processed,
        1 + (processRows g hashFn push ts (idx + 1) rest).skipped,
        (processRows g hashFn push ts (idx + 1) rest).shopifyUpdates,
        (processRows g hashFn push ts (idx + 1) rest).errors⟩ := by
  have h1 : rowStep g hashFn push ts idx row = ⟨row, 0, 1, 0, []⟩ := by
    simp [rowStep, hkw, hnan, hhash, hhtml]
  exact ⟨h1, by simp [processRows, h1]⟩

/-- Witness for C3 at a concrete skipped row. -/
theorem c3_hash_match_skips_row_witness :
    rowStep genShort (hashConst "H") none "TS" 0 rowDone = ⟨rowDone, 0, 1, 0, []⟩ ∧
    processRows genShort (hashConst "H") none "TS" 0 [rowDone] =
      ⟨rowDone :: (processRows genShort (hashConst "H") none "TS" 1 []).rows,
        (processRows genShort (hashConst "H") none "TS" 1 []).processed,
        1 + (processRows genShort (hashConst "H") none "TS" 1 []).skipped,
        (processRows genShort (hashConst "H") none "TS" 1 []).shopifyUpdates,
        (processRows genShort (hashConst "H") none "TS" 1 []).errors⟩ :=
  c3_hash_match_skips_row genShort (hashConst "H") none "TS" 0 rowDone []
    (by decide) (by decide) (by decide) (by decide)

/-- C4: when no override is present and all 3 generated heading attempts
validate to the empty string, the heading step raises, the row loop records
an error with the row index, the keyword and the message
"Unable to produce valid H2 heading" (first part; the second part is the
H3 equivalent, whose message is "Unable to produce valid H3 heading"),
leaves the row unchanged (no output column is committed), and continues
with the remaining rows. -/
theorem c4_heading_exhaustion_recorded :
    (∀ (g : Gen) (hashFn : String → String → String → String)
        (push : Option (String → String → Except String Unit)) (ts : String)
        (idx : ℕ) (row : Row) (rest : List Row),
      pyStrip row.keyword ≠ "" →
      pyLower (pyStrip row.keyword) ≠ "nan" →
      ¬(row.rowHash =
          hashFn (pyStrip row.keyword) (pyStrip row.h2Override) (pyStrip row.h3Override) ∧
        pyStrip row.collectionHtml ≠ "") →
      pyStrip row.h2Override = "" →
      (∀ a, a < 3 →
        validateHeading (g.genH2 (pyStrip row.keyword) a) (pyStrip row.keyword)
          [pyLower (pyStrip row.keyword)] = "") →
      rowStep g hashFn push ts idx row =
        ⟨row, 0, 0, 0, [(idx, pyStrip row.keyword, "Unable to produce valid H2 heading")]⟩ ∧
      processRows g hashFn push ts idx (row :: rest) =
        ⟨row :: (processRows g hashFn push ts (idx + 1) rest).rows,
          (processRows g hashFn push ts (idx + 1) rest).processed,
          (processRows g hashFn push ts (idx + 1) rest).skipped,
          (processRows g hashFn push ts (idx + 1) rest).shopifyUpdates,
          (idx, pyStrip row.keyword, "Unable to produce valid H2 heading") ::
            (processRows g hashFn push ts (idx + 1) rest).errors⟩) ∧
    (∀ (g : Gen) (hashFn : String → String → String → String)
        (push : Option (String → String → Except String Unit)) (ts : String)
        (idx : ℕ) (row : Row) (rest : List Row) (h2v : String),
      pyStrip row.keyword ≠ "" →
      pyLower (pyStrip row.keyword) ≠ "nan" →
      ¬(row.rowHash =
          hashFn (pyStrip row.keyword) (pyStrip row.h2Override) (pyStrip row.h3Override) ∧
        pyStrip row.collectionHtml ≠ "") →
      buildH2Heading g (pyStrip row.keyword) row = .ok h2v →
      pyStrip row.h3Override = "" →
      (∀ a, a < 3 →
        validateHeading (g.genH3 (pyStrip row.keyword) h2v a) (pyStrip row.keyword)
          [pyLower (pyStrip row.keyword), pyLower h2v] = "") →
      rowStep g hashFn push ts idx row =
        ⟨row, 0, 0, 0, [(idx, pyStrip row.keyword, "Unable to produce valid H3 heading")]⟩ ∧
      processRows g hashFn push ts idx (row :: rest) =
        ⟨row :: (processRows g hashFn push ts (idx + 1) rest).rows,
          (processRows g hashFn push ts (idx + 1) rest).processed,
          (processRows g hashFn push ts (idx + 1) rest).skipped,
          (processRows g hashFn push ts (idx + 1) rest).shopifyUpdates,
          (idx, pyStrip row.keyword, "Unable to produce valid H3 heading") ::
            (processRows g hashFn push ts (idx + 1) rest).errors⟩) := by
  constructor
  · intro g hashFn push ts idx row rest hkw hnan hskip hov hall
    have hb : buildH2Heading g (pyStrip row.keyword) row =
        .error "Unable to produce valid H2 heading" := by
      rw [buildH2Heading]
      simp only [hov, ne_eq, not_true_eq_false, if_false]
      exact firstValidHeading_all_invalid _ _ _ _ _ _
        (hall 0 (by norm_num)) (hall 1 (by norm_num)) (hall 2 (by norm_num))
    have h1 : rowStep g hashFn push ts idx row =
        ⟨row, 0, 0, 0, [(idx, pyStrip row.keyword, "Unable to produce valid H2 heading")]⟩ := by
      simp [rowStep, hkw, hnan, hskip, hb]
    exact ⟨h1, by simp [processRows, h1]⟩
  · intro g hashFn push ts idx row rest h2v hkw hnan hskip hH2 hov hall
    have hb : buildH3Heading g (pyStrip row.keyword) h2v row =
        .error "Unable to produce valid H3 heading" := by
      rw [buildH3Heading]
      simp only [hov, ne_eq, not_true_eq_false, if_false]
      exact firstValidHeading_all_invalid _ _ _ _ _ _
        (hall 0 (by norm_num)) (hall 1 (by norm_num)) (hall 2 (by norm_num))
    have h1 : rowStep g hashFn push ts idx row =
        ⟨row, 0, 0, 0, [(idx, pyStrip row.keyword, "Unable to produce valid H3 heading")]⟩ := by
      simp [rowStep, hkw, hnan, hskip, hH2, hb]
    exact ⟨h1, by simp [processRows, h1]⟩

/-- Witness for C4: an always-empty generator exhausts the H2 attempts on a
fresh row, and the H3 attempts on a row whose H2 override is valid. -/
theorem c4_heading_exhaustion_recorded_witness :
    (rowStep genEmpty (hashConst "H") none "TS" 0 rowFresh =
      ⟨rowFresh, 0, 0, 0, [(0, pyStrip rowFresh.keyword, "Unable to produce valid H2 heading")]⟩ ∧
    processRows genEmpty (hashConst "H") none "TS" 0 [rowFresh] =
      ⟨rowFresh :: (processRows genEmpty (hashConst "H") none "TS" 1 []).rows,
        (processRows genEmpty (hashConst "H") none "TS" 1 []).processed,
        (processRows genEmpty (hashConst "H") none "TS" 1 []).skipped,
        (processRows genEmpty (hashConst "H") none "TS" 1 []).shopifyUpdates,
        (0, pyStrip rowFresh.keyword, "Unable to produce valid H2 heading") ::
          (processRows genEmpty (hashConst "H") none "TS" 1 []).errors⟩) ∧
    (rowStep genEmpty (hashConst "H") none "TS" 5 rowH3Empty =
      ⟨rowH3Empty, 0, 0, 0, [(5, pyStrip rowH3Empty.keyword, "Unable to produce valid H3 heading")]⟩ ∧
    processRows genEmpty (hashConst "H") none "TS" 5 [rowH3Empty] =
      ⟨rowH3Empty :: (processRows genEmpty (hashConst "H") none "TS" 6 []).rows,
        (processRows genEmpty (hashConst "H") none "TS" 6 []).processed,
        (processRows genEmpty (hashConst "H") none "TS" 6 []).skipped,
        (processRows genEmpty (hashConst "H") none "TS" 6 []).shopifyUpdates,
        (5, pyStrip rowH3Empty.keyword, "Unable to produce valid H3 heading") ::
          (processRows genEmpty (hashConst "H") none "TS" 6 []).errors⟩) :=
  ⟨c4_heading_exhaustion_recorded.1 genEmpty (hashConst "H") none "TS" 0 rowFresh []
      (by decide) (by decide) (by decide) (by decide) (by decide),
   c4_heading_exhaustion_recorded.2 genEmpty (hashConst "H") none "TS" 5 rowH3Empty []
      "Beach Outings" (by decide) (by decide) (by decide) (by decide) (by decide) (by decide)⟩

/-- C5 amended: a candidate whose trimmed lower-cased form is in the
forbidden set validates to the empty string; a trimmed, non-empty,
non-forbidden candidate longer than 60 characters is truncated to its
60-character prefix with trailing whitespace then removed — so the result
is non-empty and has at most (not always exactly) 60 characters — and is
never rejected for length alone. -/
theorem c5_heading_validation_amended (h kw : String) (fb : List String) :
    (pyLower (pyStrip h) ∈ fb → validateHeading h kw fb = "") ∧
    (pyStrip h ≠ "" → pyLower (pyStrip h) ∉ fb → 60 < (pyStrip h).length →
      validateHeading h kw fb = pyRstrip ⟨(pyStrip h).data.take 60⟩ ∧
      validateHeading h kw fb ≠ "" ∧ (validateHeading h kw fb).length ≤ 60) := by
  constructor
  · intro hm
    by_cases hc : pyStrip h = ""
    · simp [validateHeading, hc]
    · simp [validateHeading, hc, hm]
  · intro hne hnm hlen
    have hval : validateHeading h kw fb = pyRstrip ⟨(pyStrip h).data.take 60⟩ := by
      simp [validateHeading, hne, hnm, hlen]
    refine ⟨hval, ?_, ?_⟩
    · rw [hval]
      rcases stripL_head h.data with hnil | ⟨c, cs, heq, hc⟩
      · exact absurd (by simp [pyStrip, hnil] : pyStrip h = "") hne
      · have hdata : (pyStrip h).data = c :: cs := by simp [pyStrip, heq]
        intro hcontra
        have hlist : rstripL ((pyStrip h).data.take 60) = [] := congrArg String.data hcontra
        rw [hdata, List.take_succ_cons] at hlist
        exact rstripL_cons_ne_nil c (cs.take 59) hc hlist
    · rw [hval]
      calc (pyRstrip ⟨(pyStrip h).data.take 60⟩).length
          ≤ ((pyStrip h).data.take 60).length := rstripL_length_le _
        _ ≤ 60 := List.length_take_le _ _

/-- Witness for C5 at a forbidden candidate and at a 61-character
candidate. -/
theorem c5_heading_validation_amended_witness :
    validateHeading " Summer DRESSES " "summer dresses" ["summer dresses"] = "" ∧
    (validateHeading "aaaaaaaaaaaaaaaaaaaaaaaaaaaaaaaaaaaaaaaaaaaaaaaaaaaaaaaaaaaaa" "k" ["k"] =
      pyRstrip
        ⟨(pyStrip "aaaaaaaaaaaaaaaaaaaaaaaaaaaaaaaaaaaaaaaaaaaaaaaaaaaaaaaaaaaaa").data.take 60⟩ ∧
    validateHeading "aaaaaaaaaaaaaaaaaaaaaaaaaaaaaaaaaaaaaaaaaaaaaaaaaaaaaaaaaaaaa" "k" ["k"] ≠ "" ∧
    (validateHeading "aaaaaaaaaaaaaaaaaaaaaaaaaaaaaaaaaaaaaaaaaaaaaaaaaaaaaaaaaaaaa" "k"
        ["k"]).length ≤ 60) :=
  ⟨(c5_heading_validation_amended " Summer DRESSES " "summer dresses" ["summer dresses"]).1
      (by decide),
   (c5_heading_validation_amended "aaaaaaaaaaaaaaaaaaaaaaaaaaaaaaaaaaaaaaaaaaaaaaaaaaaaaaaaaaaaa"
      "k" ["k"]).2 (by decide) (by decide) (by decide)⟩

/-- C6: when all 3 paragraph attempts fall outside the acceptance bounds,
the paragraph step returns the last attempt in normalized form (first
part), and the row is still processed normally — the step commits the
written row with no error entry, whatever word counts the paragraphs had
(second part, with the storefront push disabled). -/
theorem c6_paragraph_fallback_last_attempt :
    (∀ (g : Gen) (kw sub : String) (tw : ℕ),
      (∀ a, a < 3 →
        paragraphAccepts tw (wordCount (normalizeParagraph (g.genParagraph kw sub tw a))) = false) →
      buildParagraph g kw sub tw = normalizeParagraph (g.genParagraph kw sub tw 2)) ∧
    (∀ (g : Gen) (hashFn : String → String → String → String) (ts : String)
        (idx : ℕ) (row : Row) (h2v h3v : String),
      pyStrip row.keyword ≠ "" →
      pyLower (pyStrip row.keyword) ≠ "nan" →
      ¬(row.rowHash =
          hashFn (pyStrip row.keyword) (pyStrip row.h2Override) (pyStrip row.h3Override) ∧
        pyStrip row.collectionHtml ≠ "") →
      buildH2Heading g (pyStrip row.keyword) row = .ok h2v →
      buildH3Heading g (pyStrip row.keyword) h2v row = .ok h3v →
      rowStep g hashFn none ts idx row = ⟨writtenRow g hashFn ts row h2v h3v, 1, 0, 0, []⟩) := by
  constructor
  · intro g kw sub tw hrej
    rw [buildParagraph]
    simp [paragraphLoop, hrej 0 (by norm_num), hrej 1 (by norm_num), hrej 2 (by norm_num)]
  · intro g hashFn ts idx row h2v h3v hkw hnan hskip hH2 hH3
    simp [rowStep, hkw, hnan, hskip, hH2, hH3]

/-- Witness for C6: a generator whose paragraphs are one word long (out of
bounds for target 200) on a row with valid overrides. -/
theorem c6_paragraph_fallback_last_attempt_witness :
    buildParagraph genShort "summer dresses" "Beach Outings" 200 =
      normalizeParagraph (genShort.genParagraph "summer dresses" "Beach Outings" 200 2) ∧
    rowStep genShort (hashConst "H") none "TS" 0 rowOverrides =
      ⟨writtenRow genShort (hashConst "H") "TS" rowOverrides "Beach Outings" "Fabric Guide",
        1, 0, 0, []⟩ :=
  ⟨c6_paragraph_fallback_last_attempt.1 genShort "summer dresses" "Beach Outings" 200 (by decide),
   c6_paragraph_fallback_last_attempt.2 genShort (hashConst "H") "TS" 0 rowOverrides
      "Beach Outings" "Fabric Guide" (by decide) (by decide) (by decide) (by decide) (by decide)⟩

/-- C7 amended: each tag is replaced by a single space before counting, so
for tag-free `s` and tag body `b`, the count of `s<b>t` equals the count of
`s t` (with a space in place of the tag), not the count with the tag simply
deleted. -/
theorem c7_tag_replaced_by_space (s b t : String)
    (hs : ∀ c ∈ s.data, c ≠ '<' ∧ c ≠ '>')
    (hb : ∀ c ∈ b.data, c ≠ '<' ∧ c ≠ '>') :
    wordCount (s ++ "<" ++ b ++ ">" ++ t) = wordCount (s ++ " " ++ t) := by
  have e1 : (s ++ "<" ++ b ++ ">" ++ t).data =
      s.data ++ ('<' :: (b.data ++ '>' :: t.data)) := by
    simp [String.data_append]
  have e2 : (s ++ " " ++ t).data = s.data ++ (' ' :: t.data) := by
    simp [String.data_append]
  have key : stripHtmlAux false (s ++ "<" ++ b ++ ">" ++ t).data =
      stripHtmlAux false (s ++ " " ++ t).data := by
    rw [e1, e2, stripHtmlAux_tagFree _ _ hs, stripHtmlAux_tagFree _ _ hs]
    simp [stripHtmlAux, stripHtmlAux_inTag _ _ hb]
  rw [wordCount, wordCount, stripHtml, stripHtml, key]

/-- Witness for C7 at the adjacency example from the claim. -/
theorem c7_tag_replaced_by_space_witness :
    wordCount ("foo" ++ "<" ++ "b" ++ ">" ++ "bar") = wordCount ("foo" ++ " " ++ "bar") :=
  c7_tag_replaced_by_space "foo" "b" "bar" (by decide) (by decide)

/-- C8: when the storefront push is enabled and the upsert fails, the row
keeps all the columns the `try` block wrote (the step returns the written
row), the failure is recorded as a row error with the row index and
keyword, the update counter is not incremented and the loop continues with
the remaining rows; when the upsert succeeds the update counter is
incremented — so it is incremented only on a successful upsert. -/
theorem c8_shopify_failure_row_persists
    (g : Gen) (hashFn : String → String → String → String)
    (pushF : String → String → Except String Unit) (ts : String)
    (idx : ℕ) (row : Row) (rest : List Row) (h2v h3v m : String) (u : Unit)
    (hkw : pyStrip row.keyword ≠ "")
    (hnan : pyLower (pyStrip row.keyword) ≠ "nan")
    (hskip : ¬(row.rowHash =
      hashFn (pyStrip row.keyword) (pyStrip row.h2Override) (pyStrip row.h3Override) ∧
      pyStrip row.collectionHtml ≠ ""))
    (hH2 : buildH2Heading g (pyStrip row.keyword) row = .ok h2v)
    (hH3 : buildH3Heading g (pyStrip row.keyword) h2v row = .ok h3v) :
    (pushF (pyStrip row.keyword) (writtenRow g hashFn ts row h2v h3v).collectionHtml =
        .error m →
      rowStep g hashFn (some pushF) ts idx row =
        ⟨writtenRow g hashFn ts row h2v h3v, 0, 0, 0, [(idx, pyStrip row.keyword, m)]⟩ ∧
      processRows g hashFn (some pushF) ts idx (row :: rest) =
        ⟨writtenRow g hashFn ts row h2v h3v ::
            (processRows g hashFn (some pushF) ts (idx + 1) rest).rows,
          (processRows g hashFn (some pushF) ts (idx + 1) rest).processed,
          (processRows g hashFn (some pushF) ts (idx + 1) rest).skipped,
          (processRows g hashFn (some pushF) ts (idx + 1) rest).shopifyUpdates,
          (idx, pyStrip row.keyword, m) ::
            (processRows g hashFn (some pushF) ts (idx + 1) rest).errors⟩) ∧
    (pushF (pyStrip row.keyword) (writtenRow g hashFn ts row h2v h3v).collectionHtml =
        .ok u →
      rowStep g hashFn (some pushF) ts idx row =
        ⟨writtenRow g hashFn ts row h2v h3v, 1, 0, 1, []⟩) := by
  constructor
  · intro hp
    have h1 : rowStep g hashFn (some pushF) ts idx row =
        ⟨writtenRow g hashFn ts row h2v h3v, 0, 0, 0, [(idx, pyStrip row.keyword, m)]⟩ := by
      simp [rowStep, hkw, hnan, hskip, hH2, hH3, hp]
    exact ⟨h1, by simp [processRows, h1]⟩
  · intro hp
    simp [rowStep, hkw, hnan, hskip, hH2, hH3, hp]

/-- Witness for C8: a failing and a succeeding storefront oracle on the
same row. -/
theorem c8_shopify_failure_row_persists_witness :
    (rowStep genShort (hashConst "H") (some pushFail) "TS" 0 rowOverrides =
      ⟨writtenRow genShort (hashConst "H") "TS" rowOverrides "Beach Outings" "Fabric Guide",
        0, 0, 0, [(0, pyStrip rowOverrides.keyword, "shopify down")]⟩ ∧
    processRows genShort (hashConst "H") (some pushFail) "TS" 0 [rowOverrides] =
      ⟨writtenRow genShort (hashConst "H") "TS" rowOverrides "Beach Outings" "Fabric Guide" ::
          (processRows genShort (hashConst "H") (some pushFail) "TS" 1 []).rows,
        (processRows genShort (hashConst "H") (some pushFail) "TS" 1 []).processed,
        (processRows genShort (hashConst "H") (some pushFail) "TS" 1 []).skipped,
        (processRows genShort (hashConst "H") (some pushFail) "TS" 1 []).shopifyUpdates,
        (0, pyStrip rowOverrides.keyword, "shopify down") ::
          (processRows genShort (hashConst "H") (some pushFail) "TS" 1 []).errors⟩) ∧
    rowStep genShort (hashConst "H") (some pushOk) "TS" 0 rowOverrides =
      ⟨writtenRow genShort (hashConst "H") "TS" rowOverrides "Beach Outings" "Fabric Guide",
        1, 0, 1, []⟩ :=
  ⟨(c8_shopify_failure_row_persists genShort (hashConst "H") pushFail "TS" 0 rowOverrides []
      "Beach Outings" "Fabric Guide" "shopify down" () (by decide) (by decide) (by decide)
      (by decide) (by decide)).1 rfl,
   (c8_shopify_failure_row_persists genShort (hashConst "H") pushOk "TS" 0 rowOverrides []
      "Beach Outings" "Fabric Guide" "shopify down" () (by decide) (by decide) (by decide)
      (by decide) (by decide)).2 rfl⟩

/-- C9: saving the override `Custom: {keyword}` for `h2_heading` and
resolving that key returns exactly that string; saving a whitespace-only
override for any recognized key makes resolution return the compiled-in
default for it. -/
theorem c9_prompt_override_round_trip :
    getPrompt (saveOverrides [("h2_heading", "Custom: {keyword}")]) "h2_heading" =
      .ok "Custom: {keyword}" ∧
    (∀ (k w d : String), defaultPrompts.lookup k = some d → pyStrip w = "" →
      getPrompt (saveOverrides [(k, w)]) k = .ok d) := by
  constructor
  · decide
  · intro k w d hk hw
    have hsave : saveOverrides [(k, w)] = [] := by
      simp [saveOverrides, hw]
    rw [getPrompt, hsave, hk]
    simp [pyStrip_empty]

/-- Witness for C9 at the `paragraph` key with a whitespace-only value. -/
theorem c9_prompt_override_round_trip_witness :
    getPrompt (saveOverrides [("paragraph", "  ")]) "paragraph" = .ok paragraphDefault :=
  c9_prompt_override_round_trip.2 "paragraph" "  " paragraphDefault rfl (by decide)

/-- C10: a non-empty override that is case-insensitively forbidden (equal
to the keyword, or for H3 also to the H2 heading) makes the heading step
return the empty string with no generator fallback and no error (the step
result is `.ok ""` for every generator), and the composed HTML then
contains an empty heading element (`<h2></h2>` or `<h3></h3>`). -/
theorem c10_forbidden_override_yields_empty_heading :
    (∀ (g : Gen) (row : Row),
      pyStrip row.h2Override ≠ "" →
      pyLower (pyStrip row.h2Override) ∈ [pyLower (pyStrip row.keyword)] →
      buildH2Heading g (pyStrip row.keyword) row = .ok "") ∧
    (∀ (g : Gen) (row : Row) (h2v : String),
      pyStrip row.h3Override ≠ "" →
      pyLower (pyStrip row.h3Override) ∈ [pyLower (pyStrip row.keyword), pyLower h2v] →
      buildH3Heading g (pyStrip row.keyword) h2v row = .ok "") ∧
    (∀ h2p h3 h3p : String,
      List.IsInfix "<h2></h2>".data (composeHtml "" h2p h3 h3p).data) ∧
    (∀ h2 h2p h3p : String,
      List.IsInfix "<h3></h3>".data (composeHtml h2 h2p "" h3p).data) := by
  refine ⟨?_, ?_, ?_, ?_⟩
  · intro g row hne hfb
    rw [buildH2Heading]
    simp only [hne, ne_eq, not_false_eq_true, if_true, ite_true]
    have hmem : pyLower (pyStrip (pyStrip row.h2Override)) ∈
        [pyLower (pyStrip row.keyword)] := by
      rw [pyStrip_idem]; exact hfb
    have hval : validateHeading (pyStrip row.h2Override) (pyStrip row.keyword)
        [pyLower (pyStrip row.keyword)] = "" := by
      simp only [validateHeading]
      by_cases hc : pyStrip (pyStrip row.h2Override) = ""
      · rw [if_pos hc]
      · rw [if_neg hc, if_pos hmem]
    rw [hval]
  · intro g row h2v hne hfb
    rw [buildH3Heading]
    simp only [hne, ne_eq, not_false_eq_true, if_true, ite_true]
    have hmem : pyLower (pyStrip (pyStrip row.h3Override)) ∈
        [pyLower (pyStrip row.keyword), pyLower h2v] := by
      rw [pyStrip_idem]; exact hfb
    have hval : validateHeading (pyStrip row.h3Override) (pyStrip row.keyword)
        [pyLower (pyStrip row.keyword), pyLower h2v] = "" := by
      simp only [validateHeading]
      by_cases hc : pyStrip (pyStrip row.h3Override) = ""
      · rw [if_pos hc]
      · rw [if_neg hc, if_pos hmem]
    rw [hval]
  · intro h2p h3 h3p
    refine ⟨[],
      ("\n" ++ pyStrip h2p ++ "\n" ++ "<h3>" ++ h3 ++ "</h3>" ++ "\n" ++ pyStrip h3p).data, ?_⟩
    have hpat : ("<h2></h2>" : String).data = "<h2>".data ++ "</h2>".data := rfl
    simp [composeHtml, String.data_append, hpat]
  · intro h2 h2p h3p
    refine ⟨("<h2>" ++ h2 ++ "</h2>" ++ "\n" ++ pyStrip h2p ++ "\n").data,
      ("\n" ++ pyStrip h3p).data, ?_⟩
    have hpat : ("<h3></h3>" : String).data = "<h3>".data ++ "</h3>".data := rfl
    simp [composeHtml, String.data_append, hpat]

/-- Witness for C10 at concrete forbidden overrides and concrete composed
fragments. -/
theorem c10_forbidden_override_yields_empty_heading_witness :
    buildH2Heading genEmpty (pyStrip rowForbiddenH2.keyword) rowForbiddenH2 = .ok "" ∧
    buildH3Heading genEmpty (pyStrip rowForbiddenH3.keyword) "Beach Outings" rowForbiddenH3 =
      .ok "" ∧
    List.IsInfix "<h2></h2>".data (composeHtml "" "p2" "H3x" "p3").data ∧
    List.IsInfix "<h3></h3>".data (composeHtml "H2x" "p2" "" "p3").data :=
  ⟨c10_forbidden_override_yields_empty_heading.1 genEmpty rowForbiddenH2
      (by decide) (by decide),
   c10_forbidden_override_yields_empty_heading.2.1 genEmpty rowForbiddenH3 "Beach Outings"
      (by decide) (by decide),
   c10_forbidden_override_yields_empty_heading.2.2.1 "p2" "H3x" "p3",
   c10_forbidden_override_yields_empty_heading.2.2.2 "H2x" "p2" "p3"⟩

end Fashions
